import Mathlib

/-!
Verification of the VideoDataMosh repository.

Part 1: the NAL Unit Scanner/Corruptor, `VideoProcessor.corruptIFrames`
(src/unnamed/part_000, lines 1080-1122).  A `Uint8Array` is modelled as a
`List Nat` of byte values; all index accesses performed by the source are
in bounds, so `List.getD _ _ 0` is a faithful rendering of `data[i]`.

The source function:

  private corruptIFrames(data: Uint8Array): Uint8Array {
    const nalStartCode = new Uint8Array([0x00, 0x00, 0x00, 0x01]);
    const iFrameIdentifier = 0x65;
    let output = new Uint8Array(data.length);
    let outputPos = 0;
    let inIFrame = false;
    for (let i = 0; i < data.length - 4; i++) {
      if (data[i] === 0x00 && data[i+1] === 0x00 &&
          data[i+2] === 0x00 && data[i+3] === 0x01) {
        const nalType = data[i + 4] & 0x1F;
        if (nalType === iFrameIdentifier) {
          inIFrame = true;
          i += 4; continue;          // together with i++ this advances i by 5
        } else {
          inIFrame = false;
        }
      }
      if (!inIFrame) output[outputPos++] = data[i];
    }
    while (outputPos < data.length) { output[outputPos] = data[outputPos]; outputPos++; }
    return output.slice(0, outputPos);
  }

The `for` loop is modelled by `corruptLoop`, the trailing `while` loop by
`copyRemaining`.  Both are written with an explicit fuel argument so that
they are structurally recursive and kernel-computable; the wrapper
`corruptIFrames` passes `data.length` as fuel, which is an upper bound on
the number of iterations of either loop (the loop index grows by at least
one per iteration and the loops stop at `data.length - 4` resp.
`data.length`).  Writes to `output` are dense and sequential at
`outputPos`, so the output buffer is modelled as an accumulating list
`out` with `outputPos = out.length`; the final `slice(0, outputPos)` is
then the list itself.

Note the JS loop bound `i < data.length - 4`: for `data.length < 4` the
JS right side is negative and the loop body never runs, which agrees with
truncated `Nat` subtraction.
-/

/-- The NAL start-code identifier compared against in the source,
`iFrameIdentifier = 0x65`. -/
def iFrameIdentifier : Nat := 0x65

/-- The `for` loop of `corruptIFrames`.  `i` is the loop index,
`inIFrame` the mutable flag, `out` the written prefix of the output
buffer.  `fuel` bounds the remaining number of iterations. -/
def corruptLoop (data : List Nat) : Nat → Nat → Bool → List Nat → List Nat
  | 0, _, _, out => out
  | fuel + 1, i, inIFrame, out =>
    if i < data.length - 4 then
      if data.getD i 0 = 0x00 ∧ data.getD (i + 1) 0 = 0x00 ∧
          data.getD (i + 2) 0 = 0x00 ∧ data.getD (i + 3) 0 = 0x01 then
        -- const nalType = data[i + 4] & 0x1F
        if (data.getD (i + 4) 0) &&& 0x1F = iFrameIdentifier then
          -- inIFrame = true; i += 4; continue;  (the i++ of the loop header
          -- makes the total increment 5, and the copy below is skipped)
          corruptLoop data fuel (i + 5) true out
        else
          -- inIFrame = false, then the copy runs since !inIFrame holds
          corruptLoop data fuel (i + 1) false (out ++ [data.getD i 0])
      else
        if inIFrame then corruptLoop data fuel (i + 1) inIFrame out
        else corruptLoop data fuel (i + 1) inIFrame (out ++ [data.getD i 0])
    else out

/-- The trailing `while (outputPos < data.length)` loop of
`corruptIFrames`: it copies `data[outputPos]` to `output[outputPos]`,
i.e. appends `data[out.length]` to the written prefix. -/
def copyRemaining (data : List Nat) : Nat → List Nat → List Nat
  | 0, out => out
  | fuel + 1, out =>
    if out.length < data.length then
      copyRemaining data fuel (out ++ [data.getD out.length 0])
    else out

/-- `VideoProcessor.corruptIFrames`: main loop starting at `i = 0` with
`inIFrame = false` and an empty written prefix, then the trailing copy
loop, then `output.slice(0, outputPos)` (the written prefix itself). -/
def corruptIFrames (data : List Nat) : List Nat :=
  copyRemaining data data.length (corruptLoop data data.length 0 false [])

/-- The property claimed of the corruptor output: it contains a 4-byte
start code `00 00 00 01` immediately followed by a byte whose low 5 bits
equal 5. -/
def hasType5StartCode (l : List Nat) : Bool :=
  (List.range l.length).any fun i =>
    decide (i + 4 < l.length ∧ l.getD i 0 = 0x00 ∧ l.getD (i + 1) 0 = 0x00 ∧
      l.getD (i + 2) 0 = 0x00 ∧ l.getD (i + 3) 0 = 0x01 ∧
      (l.getD (i + 4) 0) &&& 0x1F = 5)

/-- The example input of the spec: a type-5 unit `00 00 00 01 65 AA BB`
followed by a type-1 unit `00 00 00 01 41 CC DD`. -/
def exampleStream : List Nat :=
  [0x00, 0x00, 0x00, 0x01, 0x65, 0xAA, 0xBB,
   0x00, 0x00, 0x00, 0x01, 0x41, 0xCC, 0xDD]

section CorruptorLemmas

/-- The exclusion branch of the scanner is unreachable: the masked type
`data[i+4] &&& 0x1F` is at most 31, while `iFrameIdentifier = 0x65 = 101`. -/
theorem nalType_ne_iFrameIdentifier (b : Nat) : b &&& 0x1F ≠ iFrameIdentifier := by
  intro h
  have hle : b &&& 0x1F ≤ 0x1F := Nat.and_le_right
  rw [h] at hle
  norm_num [iFrameIdentifier] at hle

/-- With `inIFrame = false`, every iteration of the main loop copies the
current byte and advances the index by one, so the loop appends the
segment of `data` from `i` up to `data.length - 4`. -/
theorem corruptLoop_false_eq (data : List Nat) :
    ∀ fuel i out, data.length - 4 - i ≤ fuel →
      corruptLoop data fuel i false out =
        out ++ (data.drop i).take (data.length - 4 - i) := by
  intro fuel
  induction fuel with
  | zero =>
    intro i out h
    have h0 : data.length - 4 - i = 0 := Nat.le_zero.mp h
    simp [corruptLoop, h0]
  | succ fuel ih =>
    intro i out h
    by_cases hi : i < data.length - 4
    · have hIlt : i < data.length := by omega
      have hstep : data.length - 4 - i = (data.length - 4 - (i + 1)) + 1 := by omega
      have hdrop : data.drop i = data[i] :: data.drop (i + 1) :=
        List.drop_eq_getElem_cons hIlt
      have hgetD : data.getD i 0 = data[i] := List.getD_eq_getElem data 0 hIlt
      have hseg : (data.drop i).take (data.length - 4 - i) =
          data[i] :: (data.drop (i + 1)).take (data.length - 4 - (i + 1)) := by
        rw [hstep, hdrop, List.take_succ_cons]
      by_cases hsc : data.getD i 0 = 0x00 ∧ data.getD (i + 1) 0 = 0x00 ∧
          data.getD (i + 2) 0 = 0x00 ∧ data.getD (i + 3) 0 = 0x01
      · -- start code found; the type test can never pick the skip branch
        have : corruptLoop data (fuel + 1) i false out =
            corruptLoop data fuel (i + 1) false (out ++ [data.getD i 0]) := by
          simp only [corruptLoop, if_pos hi, if_pos hsc,
            if_neg (nalType_ne_iFrameIdentifier (data.getD (i + 4) 0))]
        rw [this, ih (i + 1) (out ++ [data.getD i 0]) (by omega), hseg, hgetD]
        simp
      · have : corruptLoop data (fuel + 1) i false out =
            corruptLoop data fuel (i + 1) false (out ++ [data.getD i 0]) := by
          simp only [corruptLoop, if_pos hi]
          rw [if_neg hsc]
          simp
        rw [this, ih (i + 1) (out ++ [data.getD i 0]) (by omega), hseg, hgetD]
        simp
    · have h0 : data.length - 4 - i = 0 := by omega
      simp [corruptLoop, if_neg hi, h0]

/-- The trailing copy loop turns the written prefix `data.take k` into
the whole of `data`. -/
theorem copyRemaining_take (data : List Nat) :
    ∀ fuel k, data.length - k ≤ fuel →
      copyRemaining data fuel (data.take k) = data := by
  intro fuel
  induction fuel with
  | zero =>
    intro k h
    have : data.length ≤ k := by omega
    simp [copyRemaining, List.take_of_length_le this]
  | succ fuel ih =>
    intro k h
    by_cases hk : k < data.length
    · have hlen : (data.take k).length = k := List.length_take_of_le (le_of_lt hk)
      have hgetD : data.getD k 0 = data[k] := List.getD_eq_getElem data 0 hk
      have happ : data.take k ++ [data[k]] = data.take (k + 1) :=
        List.take_concat_get' data k hk
      have : copyRemaining data (fuel + 1) (data.take k) =
          copyRemaining data fuel (data.take (k + 1)) := by
        simp only [copyRemaining, hlen, if_pos hk, hgetD, happ]
      rw [this, ih (k + 1) (by omega)]
    · have hlen : (data.take k).length = data.length := by
        simp [List.length_take]; omega
      simp only [copyRemaining, hlen, lt_irrefl, if_false]
      exact List.take_of_length_le (by omega)

/-- `corruptIFrames` is the identity on byte contents: the exclusion
branch is dead, the main loop copies `data[0 .. data.length-5]`, and the
trailing loop copies the rest. -/
theorem corruptIFrames_identity (data : List Nat) : corruptIFrames data = data := by
  unfold corruptIFrames
  rw [corruptLoop_false_eq data data.length 0 [] (by omega)]
  simp only [List.drop_zero, List.nil_append, Nat.sub_zero]
  exact copyRemaining_take data data.length (data.length - 4) (by omega)

end CorruptorLemmas

/-- Claim C1: the claim states that corruptIFrames removes every region
that starts at a 4-byte start code whose following byte has low 5 bits
equal to 5, and in particular maps the example stream to its second unit
only.  The code does not: the masked type (at most 31) is compared with
the literal 0x65 = 101, so the exclusion branch is dead and the example
stream is returned unchanged rather than reduced to the type-1 unit. -/
theorem corruptIFrames_example_eval :
    corruptIFrames exampleStream = exampleStream ∧
    corruptIFrames exampleStream ≠ [0x00, 0x00, 0x00, 0x01, 0x41, 0xCC, 0xDD] := by
  decide

/-- Claim C2: corruptIFrames is the identity on the contents of its
input: the exclusion branch compares the masked type nibble, which is at
most 31, against 0x65 = 101 and can never be taken, and the main loop
plus the trailing copy loop reproduce every input byte in place. -/
theorem corruptIFrames_is_identity (data : List Nat) :
    corruptIFrames data = data :=
  corruptIFrames_identity data

/-- Claim C3: the claim states that the output of corruptIFrames never
contains a 4-byte start code immediately followed by a byte with low 5
bits equal to 5.  The code violates this: since corruptIFrames is the
identity, the type-5 unit of the input [00 00 00 01 25] survives into
the output. -/
theorem corruptIFrames_type5_persists :
    hasType5StartCode (corruptIFrames [0x00, 0x00, 0x00, 0x01, 0x25]) = true := by
  decide

/-- Claim C4: corruptIFrames is idempotent; running it twice gives the
same output as running it once, for every input byte array. -/
theorem corruptIFrames_idempotent (data : List Nat) :
    corruptIFrames (corruptIFrames data) = corruptIFrames data := by
  simp only [corruptIFrames_identity]

/-- Claim C5: the length of the output of corruptIFrames is at most the
length of the input.  In the pure embedding the input list is immutable
and the output is a separately built list, which models the fact that
the source only reads data and writes into a freshly allocated buffer. -/
theorem corruptIFrames_length_le (data : List Nat) :
    (corruptIFrames data).length ≤ data.length :=
  le_of_eq (by rw [corruptIFrames_identity data])

/-!
Part 2: the Offline Transcoder, `VideoProcessor.datamoshVideo`
(src/unnamed/part_000, lines 1024-1078).

The ffmpeg collaborator is external; its two exec invocations are
modelled by an `FFmpegEngine` record of the encode pass (input.mp4 to
raw.h264) and the remux pass (corrupted.h264 to output.mp4), each of
which may fail with a cause string.  The ffmpeg virtual filesystem is an
association list from file names to byte lists; `readFile` returns
`none` when the file is missing or not binary, which is the condition
the source guards with its instanceof checks.

The source body has no try/catch/finally: an error thrown by a pass
propagates out of `datamoshVideo` as it is, and the four deleteFile
calls at the end run only on the all-success path.  This is modelled by
returning, next to the `Except` result, the state of the filesystem at
the moment the function returns or the exception escapes.  The error
type distinguishes a wrapped `TranscodeError{stage, cause}` (which the
spec describes but the source never constructs) from an unwrapped
propagated error.
-/

/-- The ffmpeg virtual filesystem: file name to contents. -/
def FS : Type := List (String × List Nat)

/-- Model of `ffmpeg.writeFile`: replaces any entry with the same name. -/
def writeFile (fs : FS) (name : String) (contents : List Nat) : FS :=
  (name, contents) :: (fs : List (String × List Nat)).filter (fun p => p.1 != name)

/-- Model of `ffmpeg.readFile`: the stored bytes, or `none` when the
file is missing (the source additionally treats a non-Uint8Array result
as a failure, collapsed into `none` here). -/
def readFile (fs : FS) (name : String) : Option (List Nat) :=
  ((fs : List (String × List Nat)).find? (fun p => p.1 == name)).map (fun p => p.2)

/-- Model of `ffmpeg.deleteFile`. -/
def deleteFile (fs : FS) (name : String) : FS :=
  (fs : List (String × List Nat)).filter (fun p => p.1 != name)

/-- The external encode/remux engine behind the two `ffmpeg.exec`
invocations of `datamoshVideo`.  Each pass either produces the bytes of
its output file or fails with a cause string. -/
structure FFmpegEngine where
  encode : List Nat → Except String (List Nat)
  remux : List Nat → Except String (List Nat)

/-- Errors escaping `datamoshVideo`.  `transcodeError` is the wrapped
error kind the spec describes; `rawError` is an unwrapped underlying
error propagated as thrown. -/
inductive VPError where
  | transcodeError (stage : String) (cause : String)
  | rawError (cause : String)
deriving DecidableEq

/-- True exactly when the result failed with the wrapped error kind. -/
def isTranscodeError : Except VPError (List Nat) → Bool
  | .error (.transcodeError _ _) => true
  | _ => false

/-- First `ffmpeg.exec` of `datamoshVideo`: reads input.mp4, re-encodes
it to a raw h264 elementary stream, writes raw.h264. -/
def execEncode (eng : FFmpegEngine) (fs : FS) : Except String FS :=
  match readFile fs "input.mp4" with
  | none => .error "input.mp4: No such file or directory"
  | some d =>
    match eng.encode d with
    | .error e => .error e
    | .ok raw => .ok (writeFile fs "raw.h264" raw)

/-- Second `ffmpeg.exec` of `datamoshVideo`: reads corrupted.h264,
remuxes it into an mp4 container, writes output.mp4. -/
def execRemux (eng : FFmpegEngine) (fs : FS) : Except String FS :=
  match readFile fs "corrupted.h264" with
  | none => .error "corrupted.h264: No such file or directory"
  | some d =>
    match eng.remux d with
    | .error e => .error e
    | .ok outBytes => .ok (writeFile fs "output.mp4" outBytes)

/-- `VideoProcessor.datamoshVideo`: write input.mp4, encode pass, read
raw.h264, corrupt it, write corrupted.h264, remux pass, read
output.mp4, delete the four temporaries, return the output bytes.
There is no try/catch: on a failing step the thrown error escapes
unwrapped and the function returns with the filesystem in its state at
that moment; the deleteFile calls run only after every step succeeded. -/
def datamoshVideo (eng : FFmpegEngine) (input : List Nat) (fs0 : FS) :
    Except VPError (List Nat) × FS :=
  let fs1 := writeFile fs0 "input.mp4" input
  match execEncode eng fs1 with
  | .error e => (.error (.rawError e), fs1)
  | .ok fs2 =>
    match readFile fs2 "raw.h264" with
    | none => (.error (.rawError "Failed to read raw video data"), fs2)
    | some raw =>
      let fs3 := writeFile fs2 "corrupted.h264" (corruptIFrames raw)
      match execRemux eng fs3 with
      | .error e => (.error (.rawError e), fs3)
      | .ok fs4 =>
        match readFile fs4 "output.mp4" with
        | none => (.error (.rawError "Failed to read output video"), fs4)
        | some outBytes =>
          let fs5 := deleteFile (deleteFile (deleteFile (deleteFile fs4
            "input.mp4") "raw.h264") "corrupted.h264") "output.mp4"
          (.ok outBytes, fs5)

/-- An engine whose encode pass always fails, used to exercise the
failure path of `datamoshVideo`. -/
def failingEngine : FFmpegEngine where
  encode := fun _ => .error "encode failed"
  remux := fun _ => .error "remux failed"

/-- Claim C6, counterexample: the claim states that when a pass fails,
datamoshVideo fails with a TranscodeError wrapping the stage and cause
and that all temporary artifacts are released even on the failure path.
With an engine whose encode pass fails, the returned error is the
unwrapped cause, not a TranscodeError, and input.mp4 is still present
in the filesystem when the function returns. -/
theorem datamoshVideo_encode_fail_eval :
    (datamoshVideo failingEngine [] []).1 = .error (.rawError "encode failed") ∧
    isTranscodeError (datamoshVideo failingEngine [] []).1 = false ∧
    readFile (datamoshVideo failingEngine [] []).2 "input.mp4" = some [] :=
  ⟨rfl, rfl, rfl⟩

/-- Claim C6, amended: when the encode pass fails with some cause, the
call fails with exactly that unwrapped cause (no TranscodeError wrapper
exists in the code), no output bytes are returned, and the already
written input.mp4 temporary is not released; the four temporaries are
deleted only on the all-success path. -/
theorem datamoshVideo_failure_unwrapped (eng : FFmpegEngine) (input : List Nat)
    (c : String) (h : eng.encode input = .error c) :
    (datamoshVideo eng input []).1 = .error (.rawError c) ∧
    readFile (datamoshVideo eng input []).2 "input.mp4" = some input := by
  simp [datamoshVideo, execEncode, readFile, writeFile, h]

/-- Witness for the amended claim C6 at the concrete failing engine. -/
theorem datamoshVideo_failure_unwrapped_wit :
    (datamoshVideo failingEngine [] []).1 = .error (.rawError "encode failed") ∧
    readFile (datamoshVideo failingEngine [] []).2 "input.mp4" = some [] :=
  datamoshVideo_failure_unwrapped failingEngine [] "encode failed" rfl

/-!
Part 3: the Render Pipeline, `TrippyVideoCanvas`
(src/src/TrippyVideoCanvas.tsx).

The component keeps its session in a `sceneRef` record holding the video
element, the video texture, the shader material, the renderer and the
current animation-frame handle, each nullable.  Shader uniform values are
numbers; they are modelled as rationals (the render claims only copy
these values and add nonnegative increments, so exact arithmetic is a
faithful model of the properties at issue).  The shader program instance
is represented by a `programId`, the video texture by a handle.

The modelled operations, each translated from the component source:
  - `bindScene` - the state of `sceneRef` after the initialisation
    effect (lines 41-218) has run: video element created and not yet
    playing, texture and renderer created, material compiled with the
    ten effect uniforms taken from the current `effects` prop, `uTime`
    zero, `uResolution` set by the initial `handleResize()`, and the
    first `animate(0)` call performed (which adds `(0 - 0)/1000` to
    `uTime` and registers an animation-frame handle).
  - `updateParameters` - the effects-update effect (lines 254-269).
  - `setPlaying` - the play/pause effect (lines 244-252).
  - `animateStep` - one iteration of `animate` (lines 206-218); its
    result carries the new closure value of `lastTime`, the new scene
    state, and the uniform record handed to the render call (`none`
    when the guard returned early and nothing was drawn).
  - `cleanup` - the effect cleanup (lines 221-240); `requestAnimationFrame`
    handles are modelled as a counter, and the browser DOM parent of the
    renderer canvas as a `DomContainer`; `Node.removeChild` throws
    `NotFoundError` when the canvas is not currently a child.  The first
    component of the result is the escaped exception, if any; mutations
    performed before the throw are kept, as in the source.  Note the
    cleanup does not null any field of `sceneRef`.
-/

/-- The ten named effect parameters of the `Effects` interface. -/
structure EffectParameters where
  waveIntensity : ℚ
  waveFrequency : ℚ
  colorShift : ℚ
  speed : ℚ
  glitchAmount : ℚ
  scanlineIntensity : ℚ
  staticAmount : ℚ
  trackingNoiseAmount : ℚ
  chromaticAberration : ℚ
  verticalJitter : ℚ
deriving DecidableEq

/-- The uniform storage of the compiled shader material: the bound
texture, the time accumulator, the ten effect slots and the resolution
vector, exactly the uniforms declared at lines 77-91 of the source. -/
structure Uniforms where
  uTexture : Nat
  uTime : ℚ
  uWaveIntensity : ℚ
  uWaveFrequency : ℚ
  uColorShift : ℚ
  uSpeed : ℚ
  uGlitchAmount : ℚ
  uScanlineIntensity : ℚ
  uStaticAmount : ℚ
  uTrackingNoiseAmount : ℚ
  uChromaticAberration : ℚ
  uVerticalJitter : ℚ
  uResolution : ℚ × ℚ
deriving DecidableEq

/-- A shader material: the identity of the compiled program plus its
uniform storage. -/
structure ShaderMaterial where
  programId : Nat
  uniforms : Uniforms
deriving DecidableEq

/-- The video element state the component touches: its source URL and
whether it is playing. -/
structure VideoState where
  src : String
  playing : Bool
deriving DecidableEq

/-- The WebGL renderer; `disposeCount` counts how many times
`renderer.dispose()` has released its resources. -/
structure Renderer where
  disposeCount : Nat
deriving DecidableEq

/-- The DOM container the renderer canvas is appended to; `hasCanvas`
records whether the canvas is currently a child. -/
structure DomContainer where
  hasCanvas : Bool
deriving DecidableEq

/-- The `sceneRef.current` record of the component. -/
structure SceneState where
  video : Option VideoState
  texture : Option Nat
  material : Option ShaderMaterial
  renderer : Option Renderer
  animationId : Option Nat
deriving DecidableEq

/-- Uniform storage as built by the material constructor at lines 77-91,
with `uResolution` already set by the initial `handleResize()`. -/
def initUniforms (e : EffectParameters) (width height : ℚ) : Uniforms where
  uTexture := 1
  uTime := 0
  uWaveIntensity := e.waveIntensity
  uWaveFrequency := e.waveFrequency
  uColorShift := e.colorShift
  uSpeed := e.speed
  uGlitchAmount := e.glitchAmount
  uScanlineIntensity := e.scanlineIntensity
  uStaticAmount := e.staticAmount
  uTrackingNoiseAmount := e.trackingNoiseAmount
  uChromaticAberration := e.chromaticAberration
  uVerticalJitter := e.verticalJitter
  uResolution := (width, height)

/-- The session state right after the initialisation effect has run. -/
def bindScene (videoUrl : String) (e : EffectParameters) (width height : ℚ) :
    SceneState where
  video := some { src := videoUrl, playing := false }
  texture := some 1
  material := some { programId := 1, uniforms := initUniforms e width height }
  renderer := some { disposeCount := 0 }
  animationId := some 1

/-- The body of the effects-update effect: the ten scalar assignments of
lines 259-268, leaving every other uniform slot as it is. -/
def writeEffectUniforms (e : EffectParameters) (u : Uniforms) : Uniforms :=
  { u with
    uWaveIntensity := e.waveIntensity
    uWaveFrequency := e.waveFrequency
    uColorShift := e.colorShift
    uSpeed := e.speed
    uGlitchAmount := e.glitchAmount
    uScanlineIntensity := e.scanlineIntensity
    uStaticAmount := e.staticAmount
    uTrackingNoiseAmount := e.trackingNoiseAmount
    uChromaticAberration := e.chromaticAberration
    uVerticalJitter := e.verticalJitter }

/-- The effects-update effect (lines 254-269): when no material is
bound it returns early; otherwise it writes the ten scalars into the
uniform storage of the existing material. -/
def updateParameters (e : EffectParameters) (s : SceneState) : SceneState :=
  match s.material with
  | none => s
  | some m =>
    { s with material := some { m with uniforms := writeEffectUniforms e m.uniforms } }

/-- The play/pause effect (lines 244-252): when no video element exists
it returns early; otherwise it calls `play()` or `pause()`. -/
def setPlaying (isPlaying : Bool) (s : SceneState) : SceneState :=
  match s.video with
  | none => s
  | some v => { s with video := some { v with playing := isPlaying } }

/-- One iteration of `animate` (lines 206-218).  The guard returns early
when material or renderer is missing; otherwise the elapsed time since
the previous frame is accumulated into `uTime`, the frame is rendered
with that uniform storage, and a fresh animation-frame handle (modelled
as a counter) is registered.  The result is (new value of the `lastTime`
closure variable, new scene state, uniforms given to the render call). -/
def animateStep (time lastTime : ℚ) (s : SceneState) :
    ℚ × SceneState × Option Uniforms :=
  match s.material, s.renderer with
  | some m, some _ =>
    let deltaTime := (time - lastTime) / 1000
    let u := { m.uniforms with uTime := m.uniforms.uTime + deltaTime }
    (time,
      { s with material := some { m with uniforms := u },
               animationId := some (s.animationId.getD 0 + 1) },
      some u)
  | _, _ => (lastTime, s, none)

/-- A run of the draw loop over a list of frame timestamps. -/
def runAnimate (ts : List ℚ) (lastTime : ℚ) (s : SceneState) : ℚ × SceneState :=
  match ts with
  | [] => (lastTime, s)
  | t :: rest =>
    let st := animateStep t lastTime s
    runAnimate rest st.1 st.2.1

/-- The value of the time-accumulator uniform of the bound material. -/
def sceneUTime (s : SceneState) : Option ℚ :=
  s.material.map fun m => m.uniforms.uTime

/-- The video part of the cleanup (lines 232-239): pause the element and
clear its source.  The `removeEventListener` call passes a fresh closure
and so changes nothing observable. -/
def cleanupVideo (s : SceneState) : SceneState :=
  match s.video with
  | none => s
  | some v => { s with video := some { v with playing := false, src := "" } }

/-- The effect cleanup (lines 221-240).  In source order: remove the
resize listener, cancel the pending animation frame, then, when a
renderer exists, dispose it and remove its canvas from the container
when the container ref is still set (`removeChild` throws NotFoundError
when the canvas was already removed, aborting the rest of the cleanup),
then pause and unload the video element.  No field of the scene record
is ever set back to null.  The first component is the escaped exception,
if any; state mutations made before a throw are kept. -/
def cleanup (container : Option DomContainer) (s : SceneState) :
    Option String × Option DomContainer × SceneState :=
  match s.renderer with
  | some r =>
    let s1 := { s with renderer := some { r with disposeCount := r.disposeCount + 1 } }
    match container with
    | some c =>
      if c.hasCanvas then
        (none, some { hasCanvas := false }, cleanupVideo s1)
      else
        (some "NotFoundError", some c, s1)
    | none => (none, none, cleanupVideo s1)
  | none => (none, container, cleanupVideo s)

/-- The ten defaults of the parameter table in the spec, all inside the
declared ranges. -/
def defaultEffects : EffectParameters where
  waveIntensity := 1/50
  waveFrequency := 40
  colorShift := 0
  speed := 2
  glitchAmount := 0
  scanlineIntensity := 1/10
  staticAmount := 1/20
  trackingNoiseAmount := 1/10
  chromaticAberration := 1/500
  verticalJitter := 1/1000

/-- All ten fields within the declared ranges of the parameter table. -/
def inDeclaredRanges (e : EffectParameters) : Prop :=
  0 ≤ e.waveIntensity ∧ e.waveIntensity ≤ 1/10 ∧
  1 ≤ e.waveFrequency ∧ e.waveFrequency ≤ 100 ∧
  0 ≤ e.colorShift ∧ e.colorShift ≤ 157/25 ∧
  1/10 ≤ e.speed ∧ e.speed ≤ 10 ∧
  0 ≤ e.glitchAmount ∧ e.glitchAmount ≤ 1/5 ∧
  0 ≤ e.scanlineIntensity ∧ e.scanlineIntensity ≤ 1/2 ∧
  0 ≤ e.staticAmount ∧ e.staticAmount ≤ 1/5 ∧
  0 ≤ e.trackingNoiseAmount ∧ e.trackingNoiseAmount ≤ 1/2 ∧
  0 ≤ e.chromaticAberration ∧ e.chromaticAberration ≤ 1/100 ∧
  0 ≤ e.verticalJitter ∧ e.verticalJitter ≤ 1/200

/-- Nondecreasing chain of frame timestamps starting from a base value. -/
def NonDec : ℚ → List ℚ → Prop
  | _, [] => True
  | a, t :: rest => a ≤ t ∧ NonDec t rest

/-- The initial value of `sceneRef.current` (lines 32-38): every field
null; this is the state before the initialisation effect has run. -/
def emptyScene : SceneState where
  video := none
  texture := none
  material := none
  renderer := none
  animationId := none

/-- Claim C7: for parameters within the declared ranges written to a
bound material, updateParameters copies exactly the ten scalar fields
into the uniform storage, keeps the same shader program, leaves uTime,
uTexture and uResolution unchanged, and the next draw-loop iteration
renders with exactly those ten values (only uTime advances). -/
theorem updateParameters_ten_fields (e : EffectParameters) (s : SceneState)
    (m : ShaderMaterial) (r : Renderer) (t lt : ℚ)
    (hrange : inDeclaredRanges e) (hm : s.material = some m)
    (hr : s.renderer = some r) :
    ∃ m2, (updateParameters e s).material = some m2 ∧
      m2.programId = m.programId ∧
      m2.uniforms.uWaveIntensity = e.waveIntensity ∧
      m2.uniforms.uWaveFrequency = e.waveFrequency ∧
      m2.uniforms.uColorShift = e.colorShift ∧
      m2.uniforms.uSpeed = e.speed ∧
      m2.uniforms.uGlitchAmount = e.glitchAmount ∧
      m2.uniforms.uScanlineIntensity = e.scanlineIntensity ∧
      m2.uniforms.uStaticAmount = e.staticAmount ∧
      m2.uniforms.uTrackingNoiseAmount = e.trackingNoiseAmount ∧
      m2.uniforms.uChromaticAberration = e.chromaticAberration ∧
      m2.uniforms.uVerticalJitter = e.verticalJitter ∧
      m2.uniforms.uTime = m.uniforms.uTime ∧
      m2.uniforms.uTexture = m.uniforms.uTexture ∧
      m2.uniforms.uResolution = m.uniforms.uResolution ∧
      (animateStep t lt (updateParameters e s)).2.2 =
        some { m2.uniforms with uTime := m2.uniforms.uTime + (t - lt) / 1000 } := by
  refine ⟨{ m with uniforms := writeEffectUniforms e m.uniforms }, ?_, rfl, rfl,
    rfl, rfl, rfl, rfl, rfl, rfl, rfl, rfl, rfl, rfl, rfl, rfl, ?_⟩
  · simp [updateParameters, hm]
  · simp [updateParameters, animateStep, hm, hr]

/-- A concrete bound session used to witness the render-pipeline
theorems. -/
def witScene : SceneState := bindScene "video.mp4" defaultEffects 640 360

/-- The shader material of `witScene`. -/
def witMaterial : ShaderMaterial where
  programId := 1
  uniforms := initUniforms defaultEffects 640 360

/-- Witness for claim C7 at the default parameters and a concrete bound
session. -/
theorem updateParameters_ten_fields_wit :
    inDeclaredRanges defaultEffects ∧
    (∃ m2, (updateParameters defaultEffects witScene).material = some m2 ∧
      m2.programId = witMaterial.programId ∧
      m2.uniforms.uWaveIntensity = defaultEffects.waveIntensity ∧
      m2.uniforms.uWaveFrequency = defaultEffects.waveFrequency ∧
      m2.uniforms.uColorShift = defaultEffects.colorShift ∧
      m2.uniforms.uSpeed = defaultEffects.speed ∧
      m2.uniforms.uGlitchAmount = defaultEffects.glitchAmount ∧
      m2.uniforms.uScanlineIntensity = defaultEffects.scanlineIntensity ∧
      m2.uniforms.uStaticAmount = defaultEffects.staticAmount ∧
      m2.uniforms.uTrackingNoiseAmount = defaultEffects.trackingNoiseAmount ∧
      m2.uniforms.uChromaticAberration = defaultEffects.chromaticAberration ∧
      m2.uniforms.uVerticalJitter = defaultEffects.verticalJitter ∧
      m2.uniforms.uTime = witMaterial.uniforms.uTime ∧
      m2.uniforms.uTexture = witMaterial.uniforms.uTexture ∧
      m2.uniforms.uResolution = witMaterial.uniforms.uResolution ∧
      (animateStep 1 0 (updateParameters defaultEffects witScene)).2.2 =
        some { m2.uniforms with uTime := m2.uniforms.uTime + (1 - 0) / 1000 }) :=
  ⟨by norm_num [inDeclaredRanges, defaultEffects],
   updateParameters_ten_fields defaultEffects witScene witMaterial ⟨0⟩ 1 0
     (by norm_num [inDeclaredRanges, defaultEffects]) rfl rfl⟩

/-- Parameter values with integral entries (the update path performs no
validation, so any values may be written). -/
def plainEffects : EffectParameters where
  waveIntensity := 0
  waveFrequency := 1
  colorShift := 0
  speed := 1
  glitchAmount := 0
  scanlineIntensity := 0
  staticAmount := 0
  trackingNoiseAmount := 0
  chromaticAberration := 0
  verticalJitter := 0

/-- The parameters above with a different first field. -/
def changedEffects : EffectParameters :=
  { plainEffects with waveIntensity := 1 }

/-- Claim C8, counterexample: the claim states that an update issued
after disposal is a no-op.  The cleanup never nulls the session refs,
so after disposing a bound session the material is still present and an
update still writes the ten fields into its uniform storage: the state
changes, so the operation is not a no-op. -/
theorem updateParameters_after_dispose_not_noop :
    updateParameters changedEffects
        (cleanup (some { hasCanvas := true })
          (bindScene "video.mp4" plainEffects 640 360)).2.2 ≠
      (cleanup (some { hasCanvas := true })
        (bindScene "video.mp4" plainEffects 640 360)).2.2 := by
  decide

/-- Claim C8, amended: parameter updates are tolerated at any time in
the sense that they never raise (the modelled operation is total): an
update issued before initialisation, when no material is bound, is a
complete no-op; an update issued after disposal never errors and touches
nothing but the bound material (video, texture, renderer and the
animation handle are untouched), but it is not a no-op, because the
cleanup keeps the refs and the ten fields are still written into the
retained uniform storage of the disposed material. -/
theorem updateParameters_tolerant (e : EffectParameters) (s : SceneState) :
    (s.material = none → updateParameters e s = s) ∧
    (updateParameters e s).video = s.video ∧
    (updateParameters e s).texture = s.texture ∧
    (updateParameters e s).renderer = s.renderer ∧
    (updateParameters e s).animationId = s.animationId := by
  constructor
  · intro h
    simp [updateParameters, h]
  · cases hm : s.material <;> simp [updateParameters, hm]

/-- Witness for the amended claim C8: on the uninitialised session the
update is the identity. -/
theorem updateParameters_tolerant_wit :
    updateParameters defaultEffects emptyScene = emptyScene ∧
    (updateParameters defaultEffects emptyScene).renderer = emptyScene.renderer :=
  ⟨(updateParameters_tolerant defaultEffects emptyScene).1 rfl,
   (updateParameters_tolerant defaultEffects emptyScene).2.2.2.1⟩

/-- Claim C9, counterexample: the claim states that running the teardown
twice on the same session produces no error and performs no release on
already-released resources.  Because the cleanup nulls no session field,
a second run with the container still mounted disposes the renderer a
second time and calls removeChild on the already-removed canvas, which
raises NotFoundError. -/
theorem cleanup_twice_eval :
    (cleanup (cleanup (some { hasCanvas := true })
          (bindScene "video.mp4" plainEffects 640 360)).2.1
        (cleanup (some { hasCanvas := true })
          (bindScene "video.mp4" plainEffects 640 360)).2.2).1 =
      some "NotFoundError" ∧
    (cleanup (cleanup (some { hasCanvas := true })
          (bindScene "video.mp4" plainEffects 640 360)).2.1
        (cleanup (some { hasCanvas := true })
          (bindScene "video.mp4" plainEffects 640 360)).2.2).2.2.renderer =
      some { disposeCount := 2 } := by
  exact ⟨rfl, rfl⟩

/-- Claim C9, amended: the teardown is not idempotent.  For any session
holding a renderer whose canvas is attached to a mounted container, the
first cleanup succeeds, but a second cleanup run on the resulting state
raises NotFoundError from removeChild and releases the renderer again:
its dispose count ends at two releases instead of one. -/
theorem cleanup_second_call (s : SceneState) (r : Renderer) (c : DomContainer)
    (hr : s.renderer = some r) (hc : c.hasCanvas = true) :
    (cleanup (some c) s).1 = none ∧
    (cleanup (cleanup (some c) s).2.1 (cleanup (some c) s).2.2).1 =
      some "NotFoundError" ∧
    (cleanup (cleanup (some c) s).2.1 (cleanup (some c) s).2.2).2.2.renderer =
      some { disposeCount := r.disposeCount + 2 } := by
  cases hv : s.video <;>
    simp [cleanup, cleanupVideo, hr, hc, hv]

/-- Witness for the amended claim C9 at a concrete bound session and
mounted container. -/
theorem cleanup_second_call_wit :
    (cleanup (some { hasCanvas := true }) witScene).1 = none ∧
    (cleanup (cleanup (some { hasCanvas := true }) witScene).2.1
        (cleanup (some { hasCanvas := true }) witScene).2.2).1 =
      some "NotFoundError" ∧
    (cleanup (cleanup (some { hasCanvas := true }) witScene).2.1
        (cleanup (some { hasCanvas := true }) witScene).2.2).2.2.renderer =
      some { disposeCount := 0 + 2 } :=
  cleanup_second_call witScene { disposeCount := 0 } { hasCanvas := true } rfl rfl

section DrawLoopLemmas

/-- A nondecreasing chain stays nondecreasing when its base is lowered. -/
theorem NonDec_of_le (a b : ℚ) (l : List ℚ) (hab : a ≤ b) (h : NonDec b l) :
    NonDec a l := by
  cases l with
  | nil => trivial
  | cons t rest => exact ⟨le_trans hab h.1, h.2⟩

/-- Over any nondecreasing timestamp chain, a run of the draw loop can
only increase the time accumulator. -/
theorem runAnimate_uTime_mono (ts : List ℚ) :
    ∀ t0 s u, NonDec t0 ts → sceneUTime s = some u →
      ∃ u2, sceneUTime (runAnimate ts t0 s).2 = some u2 ∧ u ≤ u2 := by
  induction ts with
  | nil =>
    intro t0 s u _ hu
    exact ⟨u, hu, le_refl u⟩
  | cons t rest ih =>
    intro t0 s u hnd hu
    obtain ⟨ht0, hrest⟩ := hnd
    obtain ⟨m, hm⟩ : ∃ m, s.material = some m := by
      cases hms : s.material with
      | none => rw [sceneUTime, hms] at hu; simp at hu
      | some m => exact ⟨m, rfl⟩
    have hum : m.uniforms.uTime = u := by
      rw [sceneUTime, hm] at hu
      simpa using hu
    cases hr : s.renderer with
    | none =>
      have hstep : animateStep t t0 s = (t0, s, none) := by
        rw [animateStep, hm, hr]
      rw [runAnimate, hstep]
      exact ih t0 s u (NonDec_of_le t0 t rest ht0 hrest) hu
    | some r =>
      have hstep : animateStep t t0 s =
          (t, { s with
                  material := some { m with uniforms :=
                    { m.uniforms with uTime := m.uniforms.uTime + (t - t0) / 1000 } },
                  animationId := some (s.animationId.getD 0 + 1) },
            some { m.uniforms with uTime := m.uniforms.uTime + (t - t0) / 1000 }) := by
        rw [animateStep, hm, hr]
      rw [runAnimate, hstep]
      have hdelta : 0 ≤ (t - t0) / 1000 := by
        have : (0 : ℚ) ≤ t - t0 := by linarith
        positivity
      obtain ⟨u2, hu2, hle⟩ := ih t
        { s with
            material := some { m with uniforms :=
              { m.uniforms with uTime := m.uniforms.uTime + (t - t0) / 1000 } },
            animationId := some (s.animationId.getD 0 + 1) }
        (u + (t - t0) / 1000) hrest (by simp [sceneUTime, hum])
      exact ⟨u2, hu2, by linarith⟩

/-- One draw-loop iteration commutes with the play/pause toggle: the
toggle touches only the video element, the iteration touches only the
material and the animation handle. -/
theorem animateStep_setPlaying (t lt : ℚ) (b : Bool) (s : SceneState) :
    animateStep t lt (setPlaying b s) =
      ((animateStep t lt s).1, setPlaying b (animateStep t lt s).2.1,
        (animateStep t lt s).2.2) := by
  obtain ⟨v, tex, mat, ren, anim⟩ := s
  cases v <;> cases mat <;> cases ren <;> simp [setPlaying, animateStep]

/-- A whole draw-loop run commutes with the play/pause toggle. -/
theorem runAnimate_setPlaying (ts : List ℚ) :
    ∀ t0 s b, runAnimate ts t0 (setPlaying b s) =
      ((runAnimate ts t0 s).1, setPlaying b (runAnimate ts t0 s).2) := by
  induction ts with
  | nil => intro t0 s b; simp [runAnimate]
  | cons t rest ih =>
    intro t0 s b
    rw [runAnimate, animateStep_setPlaying]
    rw [ih (animateStep t t0 s).1 (animateStep t t0 s).2.1 b]
    rw [runAnimate]

/-- The play/pause toggle does not read or write the time accumulator. -/
theorem sceneUTime_setPlaying (b : Bool) (s : SceneState) :
    sceneUTime (setPlaying b s) = sceneUTime s := by
  cases hv : s.video <;> simp [setPlaying, sceneUTime, hv]

end DrawLoopLemmas

/-- Claim C10: over a nondecreasing timestamp chain the time accumulator
uniform never decreases; each draw iteration with a live material and
renderer adds the elapsed time since the previous frame to it; and the
whole loop is independent of the playback state of the video source:
toggling play or pause commutes with any run of the loop and leaves the
accumulator unread and unwritten. -/
theorem uTime_monotone_playback_independent (ts : List ℚ) (t0 : ℚ)
    (s : SceneState) (u t lt : ℚ) (b : Bool) (m : ShaderMaterial) (r : Renderer)
    (hchain : NonDec t0 ts) (hu : sceneUTime s = some u)
    (hm : s.material = some m) (hr : s.renderer = some r) :
    (∃ u2, sceneUTime (runAnimate ts t0 s).2 = some u2 ∧ u ≤ u2) ∧
    sceneUTime (animateStep t lt s).2.1 = some (u + (t - lt) / 1000) ∧
    runAnimate ts t0 (setPlaying b s) =
      ((runAnimate ts t0 s).1, setPlaying b (runAnimate ts t0 s).2) ∧
    sceneUTime (setPlaying b s) = sceneUTime s := by
  refine ⟨runAnimate_uTime_mono ts t0 s u hchain hu, ?_,
    runAnimate_setPlaying ts t0 s b, sceneUTime_setPlaying b s⟩
  have hum : m.uniforms.uTime = u := by
    rw [sceneUTime, hm] at hu
    simpa using hu
  rw [animateStep, hm, hr]
  simp [sceneUTime, hum]

/-- Witness for claim C10 on a concrete bound session and the chain of
timestamps 0, 1, 2. -/
theorem uTime_monotone_playback_independent_wit :
    NonDec 0 [1, 2] ∧
    ((∃ u2, sceneUTime (runAnimate [1, 2] 0 witScene).2 = some u2 ∧ 0 ≤ u2) ∧
      sceneUTime (animateStep 5 3 witScene).2.1 = some (0 + (5 - 3) / 1000) ∧
      runAnimate [1, 2] 0 (setPlaying true witScene) =
        ((runAnimate [1, 2] 0 witScene).1,
          setPlaying true (runAnimate [1, 2] 0 witScene).2) ∧
      sceneUTime (setPlaying true witScene) = sceneUTime witScene) :=
  ⟨by norm_num [NonDec],
   uTime_monotone_playback_independent [1, 2] 0 witScene 0 5 3 true
     witMaterial { disposeCount := 0 } (by norm_num [NonDec]) rfl rfl rfl⟩
